import Mathlib

/-!
Verification development for the client-report-engine repository.

The Python sources are shallowly embedded as executable Lean definitions:
  * `api/storage.py`  — `BrandStorage` over an insertion-ordered association list;
  * `api/main.py`     — the report-generation flow and its context builder;
  * `client_reports/renderer.py` — `render_docx`;
  * `client_reports/pdf.py`      — `docx_to_pdf` and its two backends.
Python `datetime` values are modelled by the `DT` structure; their
ISO-8601 serialization (`datetime.isoformat`, as emitted by pydantic's
`model_dump(mode="json")` and parsed back by pydantic validation) is
modelled by `isoFormat` / `isoParse` over lists of characters.
-/

set_option autoImplicit false

namespace ClientReports

/-- Model of a Python `datetime` value (naive UTC, as produced by
`datetime.utcnow()`): calendar and clock components plus microseconds. -/
structure DT where
  year : Nat
  month : Nat
  day : Nat
  hour : Nat
  minute : Nat
  second : Nat
  microsecond : Nat
deriving Repr, DecidableEq

/-- Component bounds under which the ISO rendering of a `DT` is the
fixed-width zero-padded form that `isoParse` inverts.  Every value a real
`datetime` can hold satisfies these. -/
def DT.Valid (d : DT) : Prop :=
  d.year < 10000 ∧ d.month < 100 ∧ d.day < 100 ∧ d.hour < 100 ∧
    d.minute < 100 ∧ d.second < 100 ∧ d.microsecond < 1000000

instance (d : DT) : Decidable d.Valid := by
  unfold DT.Valid; infer_instance

/-- The decimal digit character for `d < 10` (as used by `strftime`
zero-padding and `isoformat`). -/
def digitChar (d : Nat) : Char :=
  match d with
  | 0 => '0' | 1 => '1' | 2 => '2' | 3 => '3' | 4 => '4'
  | 5 => '5' | 6 => '6' | 7 => '7' | 8 => '8' | _ => '9'

/-- Numeric value of a digit character. -/
def digitVal (c : Char) : Nat := c.toNat - 48

/-- Zero-padded fixed-width decimal rendering, most significant digit
first: `pad 2 7 = ['0','7']`. -/
def pad : Nat → Nat → List Char
  | 0, _ => []
  | w + 1, n => digitChar (n / 10 ^ w) :: pad w (n % 10 ^ w)

/-- Read exactly `w` digit characters as a decimal number, returning the
value and the rest of the input; fails on a non-digit or early end. -/
def readFixed : Nat → List Char → Option (Nat × List Char)
  | 0, cs => some (0, cs)
  | _ + 1, [] => none
  | w + 1, c :: cs =>
    if c.isDigit then
      (readFixed w cs).map (fun p => (digitVal c * 10 ^ w + p.1, p.2))
    else none

/-- Consume one expected literal character. -/
def expectChar (c : Char) : List Char → Option (List Char)
  | [] => none
  | x :: xs => if x = c then some xs else none

/-- ISO-8601 rendering of a `DT`, exactly as Python's
`datetime.isoformat()`: `YYYY-MM-DDTHH:MM:SS`, with `.ffffff` appended
only when the microsecond component is nonzero. -/
def isoFormat (d : DT) : List Char :=
  pad 4 d.year ++ '-' ::
    (pad 2 d.month ++ '-' ::
      (pad 2 d.day ++ 'T' ::
        (pad 2 d.hour ++ ':' ::
          (pad 2 d.minute ++ ':' ::
            (pad 2 d.second ++
              (if d.microsecond = 0 then [] else '.' :: pad 6 d.microsecond))))))

/-- Parser for the strings `isoFormat` produces (the model of pydantic
re-validating an ISO timestamp into a `datetime`). -/
def isoParse (cs : List Char) : Option DT :=
  (readFixed 4 cs).bind fun py =>
  (expectChar '-' py.2).bind fun cs =>
  (readFixed 2 cs).bind fun pmo =>
  (expectChar '-' pmo.2).bind fun cs =>
  (readFixed 2 cs).bind fun pd =>
  (expectChar 'T' pd.2).bind fun cs =>
  (readFixed 2 cs).bind fun ph =>
  (expectChar ':' ph.2).bind fun cs =>
  (readFixed 2 cs).bind fun pmi =>
  (expectChar ':' pmi.2).bind fun cs =>
  (readFixed 2 cs).bind fun ps =>
  match ps.2 with
  | [] => some ⟨py.1, pmo.1, pd.1, ph.1, pmi.1, ps.1, 0⟩
  | c :: rest =>
    if c = '.' then
      (readFixed 6 rest).bind fun pus =>
        if pus.2 = [] then some ⟨py.1, pmo.1, pd.1, ph.1, pmi.1, ps.1, pus.1⟩
        else none
    else none

theorem digitChar_isDigit {d : Nat} (h : d < 10) : (digitChar d).isDigit = true := by
  interval_cases d <;> decide

theorem digitVal_digitChar {d : Nat} (h : d < 10) : digitVal (digitChar d) = d := by
  interval_cases d <;> decide

theorem readFixed_pad (w : Nat) (n : Nat) (tail : List Char) (h : n < 10 ^ w) :
    readFixed w (pad w n ++ tail) = some (n, tail) := by
  induction w generalizing n tail with
  | zero =>
    have : n = 0 := Nat.lt_one_iff.mp h
    simp [pad, readFixed, this]
  | succ w ih =>
    have hq : n / 10 ^ w < 10 :=
      Nat.div_lt_of_lt_mul (by rw [← pow_succ]; exact h)
    have hr : n % 10 ^ w < 10 ^ w := Nat.mod_lt _ (Nat.pos_pow_of_pos w (by norm_num))
    simp only [pad, readFixed, List.cons_append, digitChar_isDigit hq, if_pos,
      List.append_eq]
    rw [ih (n % 10 ^ w) tail hr]
    simp [digitVal_digitChar hq]
    calc n / 10 ^ w * 10 ^ w + n % 10 ^ w
        = 10 ^ w * (n / 10 ^ w) + n % 10 ^ w := by ring
      _ = n := Nat.div_add_mod n (10 ^ w)

theorem expectChar_cons (c : Char) (tail : List Char) :
    expectChar c (c :: tail) = some tail := by
  simp [expectChar]

theorem readFixed_pad_nil (w : Nat) (n : Nat) (h : n < 10 ^ w) :
    readFixed w (pad w n) = some (n, []) := by
  have := readFixed_pad w n [] h
  simpa using this

set_option maxHeartbeats 1000000 in
theorem isoParse_isoFormat (d : DT) (h : d.Valid) : isoParse (isoFormat d) = some d := by
  obtain ⟨y, mo, dd, hh, mi, s, us⟩ := d
  obtain ⟨h1, h2, h3, h4, h5, h6, h7⟩ := h
  simp only at h1 h2 h3 h4 h5 h6 h7
  have hy : y < 10 ^ 4 := lt_of_lt_of_le h1 (by norm_num)
  have hmo : mo < 10 ^ 2 := lt_of_lt_of_le h2 (by norm_num)
  have hdd : dd < 10 ^ 2 := lt_of_lt_of_le h3 (by norm_num)
  have hhh : hh < 10 ^ 2 := lt_of_lt_of_le h4 (by norm_num)
  have hmi : mi < 10 ^ 2 := lt_of_lt_of_le h5 (by norm_num)
  have hs : s < 10 ^ 2 := lt_of_lt_of_le h6 (by norm_num)
  have hus6 : us < 10 ^ 6 := lt_of_lt_of_le h7 (by norm_num)
  simp only [isoFormat, isoParse]
  rw [readFixed_pad _ _ _ hy]
  simp only [Option.some_bind]
  rw [expectChar_cons]
  simp only [Option.some_bind]
  rw [readFixed_pad _ _ _ hmo]
  simp only [Option.some_bind]
  rw [expectChar_cons]
  simp only [Option.some_bind]
  rw [readFixed_pad _ _ _ hdd]
  simp only [Option.some_bind]
  rw [expectChar_cons]
  simp only [Option.some_bind]
  rw [readFixed_pad _ _ _ hhh]
  simp only [Option.some_bind]
  rw [expectChar_cons]
  simp only [Option.some_bind]
  rw [readFixed_pad _ _ _ hmi]
  simp only [Option.some_bind]
  rw [expectChar_cons]
  simp only [Option.some_bind]
  by_cases hus : us = 0
  · subst hus
    simp [readFixed_pad_nil _ _ hs]
  · rw [if_neg hus, readFixed_pad _ _ _ hs]
    simp [readFixed_pad_nil _ _ hus6]

/-- Model of `api/models.py::BrandConfig`.  `website_url` holds the
already-validated, normalized URL string (pydantic `HttpUrl` values
serialize to exactly that string and re-validate to themselves). -/
structure BrandConfig where
  client_id : String
  display_name : String
  primary_color : Option String := none
  secondary_color : Option String := none
  font_family : Option String := none
  logo_path : Option String := none
  website_url : Option String := none
  created_at : Option DT := none
  updated_at : Option DT := none
deriving Repr, DecidableEq

/-- An optional timestamp that round-trips (absent counts as fine). -/
def optDTValid : Option DT → Prop
  | some d => d.Valid
  | none => True

instance (o : Option DT) : Decidable (optDTValid o) :=
  match o with
  | some d => inferInstanceAs (Decidable d.Valid)
  | none => inferInstanceAs (Decidable True)

/-- A `BrandConfig` whose timestamps (when present) are in the range the
ISO serialization round-trips on. -/
def BrandConfig.Valid (b : BrandConfig) : Prop :=
  optDTValid b.created_at ∧ optDTValid b.updated_at

instance (b : BrandConfig) : Decidable b.Valid :=
  inferInstanceAs (Decidable (_ ∧ _))

/-- Lookup in a Python-dict model (`dict.get`): the value of the first
entry whose key equals the query. -/
def alookup {α : Type} : List (String × α) → String → Option α
  | [], _ => none
  | (k, v) :: rest, key => if k = key then some v else alookup rest key

/-- Python `d[key] = v` on an insertion-ordered dict: replace the value
in place when the key is present, else append a new entry. -/
def insertOrReplace {α : Type} : List (String × α) → String → α → List (String × α)
  | [], key, v => [(key, v)]
  | (k, w) :: rest, key, v =>
    if k = key then (k, v) :: rest else (k, w) :: insertOrReplace rest key v

/-- Python `del d[key]`: drop the entry holding the key. -/
def aerase {α : Type} : List (String × α) → String → List (String × α)
  | [], _ => []
  | (k, w) :: rest, key => if k = key then rest else (k, w) :: aerase rest key

/-- The in-memory mirror of `BrandStorage._cache`: an insertion-ordered
mapping from client_id to `BrandConfig`. -/
abbrev Store := List (String × BrandConfig)

namespace BrandStorage

/-- `BrandStorage.get` (storage.py line 42). -/
def get (cache : Store) (client_id : String) : Option BrandConfig :=
  alookup cache client_id

/-- `BrandStorage.get_all` (storage.py line 46): values in insertion order. -/
def get_all (cache : Store) : List BrandConfig :=
  cache.map Prod.snd

/-- `BrandStorage.upsert` (storage.py lines 50-70); `now` is the value of
`datetime.utcnow()` at the call.  Returns the new cache and the record
stored (which the method also returns). -/
def upsert (cache : Store) (brand : BrandConfig) (now : DT) : Store × BrandConfig :=
  let brand' : BrandConfig :=
    match alookup cache brand.client_id with
    | some existing =>
      { brand with created_at := existing.created_at, updated_at := some now }
    | none =>
      { brand with created_at := some now, updated_at := some now }
  (insertOrReplace cache brand'.client_id brand', brand')

/-- `BrandStorage.update_logo` (storage.py lines 72-82). -/
def update_logo (cache : Store) (client_id : String) (lp : String) (now : DT) :
    Store × Option BrandConfig :=
  match alookup cache client_id with
  | some brand =>
    let brand' := { brand with logo_path := some lp, updated_at := some now }
    (insertOrReplace cache client_id brand', some brand')
  | none => (cache, none)

/-- `BrandStorage.delete` (storage.py lines 84-90): returns the found
flag and the resulting cache. -/
def delete (cache : Store) (client_id : String) : Bool × Store :=
  if (alookup cache client_id).isSome then (true, aerase cache client_id)
  else (false, cache)

end BrandStorage

/-- One serialized record as written to `brands.json`:
`BrandConfig.model_dump(mode="json")` maps text fields to themselves
(null for `None`) and datetimes to their ISO strings. -/
structure BrandJson where
  client_id : String
  display_name : String
  primary_color : Option String
  secondary_color : Option String
  font_family : Option String
  logo_path : Option String
  website_url : Option String
  created_at : Option (List Char)
  updated_at : Option (List Char)
deriving Repr, DecidableEq

/-- `model_dump(mode="json")` on a `BrandConfig`. -/
def BrandConfig.model_dump (b : BrandConfig) : BrandJson where
  client_id := b.client_id
  display_name := b.display_name
  primary_color := b.primary_color
  secondary_color := b.secondary_color
  font_family := b.font_family
  logo_path := b.logo_path
  website_url := b.website_url
  created_at := b.created_at.map isoFormat
  updated_at := b.updated_at.map isoFormat

/-- Pydantic validation of an optional datetime field: null maps to
`None`; a string must parse as an ISO timestamp or validation fails. -/
def parseOptDT : Option (List Char) → Option (Option DT)
  | none => some none
  | some cs => (isoParse cs).map some

/-- `BrandConfig(**v)` on a serialized record: re-validates every field;
fails (raises) when a timestamp string does not parse. -/
def BrandConfig.ofJson (j : BrandJson) : Option BrandConfig :=
  (parseOptDT j.created_at).bind fun ca =>
  (parseOptDT j.updated_at).map fun ua =>
  { client_id := j.client_id
    display_name := j.display_name
    primary_color := j.primary_color
    secondary_color := j.secondary_color
    font_family := j.font_family
    logo_path := j.logo_path
    website_url := j.website_url
    created_at := ca
    updated_at := ua }

namespace BrandStorage

/-- `BrandStorage._save` (storage.py lines 36-40): the document written
to disk, `{k: v.model_dump(mode="json") for k, v in cache.items()}`. -/
def saveData (cache : Store) : List (String × BrandJson) :=
  cache.map fun kv => (kv.1, kv.2.model_dump)

/-- The comprehension `{k: BrandConfig(**v) for k, v in data.items()}`
inside `BrandStorage._load`; `none` models a raised validation error. -/
def parseData : List (String × BrandJson) → Option Store
  | [] => some []
  | (k, j) :: rest =>
    (BrandConfig.ofJson j).bind fun b =>
    (parseData rest).map fun r => (k, b) :: r

/-- `BrandStorage._load` (storage.py lines 22-34) on an existing file:
any failure while rebuilding the records silently resets the cache to
the empty store. -/
def load (data : List (String × BrandJson)) : Store :=
  match parseData data with
  | some st => st
  | none => []

end BrandStorage

/-- Every record of the store has round-trippable timestamps. -/
def Store.Valid (st : Store) : Prop := ∀ kv ∈ st, BrandConfig.Valid kv.2

instance (st : Store) : Decidable st.Valid :=
  List.decidableBAll _ st

theorem ofJson_model_dump (b : BrandConfig) (h : b.Valid) :
    BrandConfig.ofJson b.model_dump = some b := by
  obtain ⟨cid, dn, pc, sc, ff, lp, wu, ca, ua⟩ := b
  obtain ⟨h1, h2⟩ := h
  simp only at h1 h2
  cases ca <;> cases ua <;>
    simp_all [BrandConfig.ofJson, BrandConfig.model_dump, parseOptDT,
      optDTValid, isoParse_isoFormat]

theorem parseData_saveData (st : Store) (h : st.Valid) :
    BrandStorage.parseData (BrandStorage.saveData st) = some st := by
  induction st with
  | nil => simp [BrandStorage.parseData, BrandStorage.saveData]
  | cons kv rest ih =>
    have hkv : kv.2.Valid := h kv (List.mem_cons_self _ _)
    have hrest : Store.Valid rest := fun x hx => h x (List.mem_cons_of_mem _ hx)
    rw [show BrandStorage.saveData (kv :: rest)
        = (kv.1, kv.2.model_dump) :: BrandStorage.saveData rest from rfl]
    simp [BrandStorage.parseData, ofJson_model_dump kv.2 hkv, ih hrest]

theorem load_saveData (st : Store) (h : st.Valid) :
    BrandStorage.load (BrandStorage.saveData st) = st := by
  simp [BrandStorage.load, parseData_saveData st h]

/-- Left-biased choice on options (the shape of shadowed lookups). -/
def aor {α : Type} (a b : Option α) : Option α :=
  match a with
  | some v => some v
  | none => b

theorem aor_none_left {α : Type} (b : Option α) : aor none b = b := rfl

theorem aor_none_right {α : Type} (a : Option α) : aor a none = a := by
  cases a <;> rfl

theorem alookup_insertOrReplace {α : Type} (d : List (String × α)) (key : String)
    (v : α) (q : String) :
    alookup (insertOrReplace d key v) q = if q = key then some v else alookup d q := by
  induction d with
  | nil =>
    simp only [insertOrReplace, alookup]
    by_cases h : q = key
    · subst h; simp
    · simp [h, Ne.symm h]
  | cons hd tl ih =>
    obtain ⟨k, w⟩ := hd
    simp only [insertOrReplace]
    by_cases h1 : k = key
    · subst h1
      simp only [if_pos rfl, alookup]
      by_cases h2 : k = q
      · subst h2; simp
      · simp [h2, Ne.symm h2]
    · simp only [if_neg h1, alookup]
      by_cases h2 : k = q
      · subst h2
        simp [alookup, h1]
      · simp [h2, ih]

theorem alookup_eq_none_of_not_mem_keys {α : Type} (d : List (String × α)) (q : String)
    (h : q ∉ d.map Prod.fst) : alookup d q = none := by
  induction d with
  | nil => rfl
  | cons hd tl ih =>
    obtain ⟨k, w⟩ := hd
    simp only [List.map_cons, List.mem_cons, not_or] at h
    obtain ⟨hk, htl⟩ := h
    simp [alookup, Ne.symm hk, ih htl]

theorem alookup_aerase_ne {α : Type} (d : List (String × α)) (key q : String)
    (h : q ≠ key) : alookup (aerase d key) q = alookup d q := by
  induction d with
  | nil => rfl
  | cons hd tl ih =>
    obtain ⟨k, w⟩ := hd
    by_cases h1 : k = key
    · subst h1
      simp [aerase, alookup, Ne.symm h]
    · by_cases h2 : k = q <;> simp [aerase, alookup, h, h1, h2, ih]

theorem alookup_aerase_self {α : Type} (d : List (String × α)) (key : String)
    (hnd : (d.map Prod.fst).Nodup) : alookup (aerase d key) key = none := by
  induction d with
  | nil => rfl
  | cons hd tl ih =>
    obtain ⟨k, w⟩ := hd
    simp only [List.map_cons, List.nodup_cons] at hnd
    obtain ⟨hk, htl⟩ := hnd
    by_cases h1 : k = key
    · subst h1
      simpa [aerase] using alookup_eq_none_of_not_mem_keys tl k hk
    · simp [aerase, h1, alookup, ih htl]

theorem length_aerase {α : Type} (d : List (String × α)) (key : String)
    (h : (alookup d key).isSome) : (aerase d key).length + 1 = d.length := by
  induction d with
  | nil => simp [alookup] at h
  | cons hd tl ih =>
    obtain ⟨k, w⟩ := hd
    by_cases h1 : k = key
    · subst h1; simp [aerase]
    · simp only [alookup, if_neg h1] at h
      simp [aerase, h1, ih h]

theorem alookup_append {α : Type} (xs ys : List (String × α)) (q : String) :
    alookup (xs ++ ys) q = aor (alookup xs q) (alookup ys q) := by
  induction xs with
  | nil => rfl
  | cons hd tl ih =>
    obtain ⟨k, w⟩ := hd
    by_cases h : k = q <;> simp [alookup, h, ih, aor]

theorem alookup_foldl {α : Type} (ps : List (String × α)) (d : List (String × α))
    (q : String) :
    alookup (ps.foldl (fun acc kv => insertOrReplace acc kv.1 kv.2) d) q
      = aor (alookup ps.reverse q) (alookup d q) := by
  induction ps generalizing d with
  | nil => rfl
  | cons p rest ih =>
    simp only [List.foldl_cons, List.reverse_cons]
    rw [ih, alookup_append, alookup_insertOrReplace]
    cases hrev : alookup rest.reverse q with
    | some v => simp [aor]
    | none =>
      obtain ⟨k, w⟩ := p
      by_cases hq : q = k
      · subst hq; simp [aor, alookup]
      · simp [aor, alookup, hq, Ne.symm hq]

theorem alookup_reverse_of_nodup {α : Type} (l : List (String × α))
    (hnd : (l.map Prod.fst).Nodup) (q : String) :
    alookup l.reverse q = alookup l q := by
  induction l with
  | nil => rfl
  | cons p rest ih =>
    obtain ⟨k, w⟩ := p
    simp only [List.map_cons, List.nodup_cons] at hnd
    obtain ⟨hk, hrest⟩ := hnd
    rw [List.reverse_cons, alookup_append, ih hrest]
    by_cases hq : q = k
    · subst hq
      rw [alookup_eq_none_of_not_mem_keys rest _ hk]
      simp [aor, alookup]
    · cases h : alookup rest q <;> simp [aor, alookup, Ne.symm hq, h]

/-- A JSON-like value as held in the template context dict (strings,
nested dicts from `model_dump`, lists, nulls; arbitrary `extra_context`
values are also of this shape). -/
inductive Value : Type where
  | vnull : Value
  | vstr : String → Value
  | vlist : List Value → Value
  | vmap : List (String × Value) → Value

/-- `MetricItem` from `api/models.py`. -/
structure MetricItem where
  name : String
  value : String
  change : String
  status : String := "neutral"
deriving Repr, DecidableEq

/-- `MetricItem.model_dump()`. -/
def MetricItem.dump (m : MetricItem) : Value :=
  .vmap [("name", .vstr m.name), ("value", .vstr m.value),
         ("change", .vstr m.change), ("status", .vstr m.status)]

/-- `RecommendationItem` from `api/models.py`. -/
structure RecommendationItem where
  priority : String := "Medium"
  title : String
  description : String
deriving Repr, DecidableEq

/-- `RecommendationItem.model_dump()`. -/
def RecommendationItem.dump (r : RecommendationItem) : Value :=
  .vmap [("priority", .vstr r.priority), ("title", .vstr r.title),
         ("description", .vstr r.description)]

/-- `ContactInfo` from `api/models.py`. -/
structure ContactInfo where
  name : String
  title : Option String := none
  email : Option String := none
  phone : Option String := none
deriving Repr, DecidableEq

/-- Null-or-string value of an optional text field in a dumped model. -/
def optStr : Option String → Value
  | some s => .vstr s
  | none => .vnull

/-- `ContactInfo.model_dump()`. -/
def ContactInfo.dump (c : ContactInfo) : Value :=
  .vmap [("name", .vstr c.name), ("title", optStr c.title),
         ("email", optStr c.email), ("phone", optStr c.phone)]

/-- `ReportRequest` from `api/models.py`.  `extra_context` is a JSON
object, modelled as an association list with distinct keys. -/
structure ReportRequest where
  client_id : String
  template_name : String := "sample_report.docx"
  report_date : Option String := none
  report_period : Option String := none
  prepared_by : Option String := none
  executive_summary : Option String := none
  metrics : List MetricItem := []
  highlights : List String := []
  recommendations : List RecommendationItem := []
  contact : Option ContactInfo := none
  extra_context : List (String × Value) := []
  generate_pdf : Bool := false
  output_filename : Option String := none

/-- Python truthiness fallback `a or b` on an optional string: `None`
and the empty string are both falsy. -/
def pyOr (a : Option String) (b : String) : String :=
  match a with
  | none => b
  | some s => if s = "" then b else s

/-- `%B`: full month name, as `strftime` renders it. -/
def monthName : Nat → String
  | 1 => "January" | 2 => "February" | 3 => "March" | 4 => "April"
  | 5 => "May" | 6 => "June" | 7 => "July" | 8 => "August"
  | 9 => "September" | 10 => "October" | 11 => "November" | 12 => "December"
  | _ => ""

/-- `datetime.now().strftime("%B %d, %Y")`: e.g. `October 12, 2026`. -/
def formatLongDate (d : DT) : String :=
  monthName d.month ++ " " ++ ⟨pad 2 d.day⟩ ++ ", " ++ ⟨pad 4 d.year⟩

/-- The computed key-value pairs of the context dict literal in
`generate_report` (main.py lines 93-109), in source order, before the
final `**request.extra_context` splat. -/
def computedBindings (brand : BrandConfig) (req : ReportRequest) (now : DT) :
    List (String × Value) :=
  [("client_name", .vstr brand.display_name),
   ("report_date", .vstr (pyOr req.report_date (formatLongDate now))),
   ("report_period", .vstr (pyOr req.report_period "")),
   ("prepared_by", .vstr (pyOr req.prepared_by "")),
   ("executive_summary", .vstr (pyOr req.executive_summary "")),
   ("metrics", .vlist (req.metrics.map MetricItem.dump)),
   ("highlights", .vlist (req.highlights.map Value.vstr)),
   ("recommendations", .vlist (req.recommendations.map RecommendationItem.dump)),
   ("contact", match req.contact with | some c => c.dump | none => .vmap []),
   ("brand", .vmap [("primary_color", optStr brand.primary_color),
                    ("secondary_color", optStr brand.secondary_color),
                    ("font_family", optStr brand.font_family),
                    ("logo_path", optStr brand.logo_path)])]

/-- All bindings of the context dict literal, the `**extra_context`
splat last. -/
def contextBindings (brand : BrandConfig) (req : ReportRequest) (now : DT) :
    List (String × Value) :=
  computedBindings brand req now ++ req.extra_context

/-- Build a dict from bindings in order: each binding assigns its key,
later bindings shadowing earlier ones (Python dict literal with a final
`**extra` splat). -/
def dictOf (ps : List (String × Value)) : List (String × Value) :=
  ps.foldl (fun acc kv => insertOrReplace acc kv.1 kv.2) []

/-- The context dict `generate_report` passes to the renderer. -/
def buildContext (brand : BrandConfig) (req : ReportRequest) (now : DT) :
    List (String × Value) :=
  dictOf (contextBindings brand req now)

/-- Boolean prefix test on character lists. -/
def isPre : List Char → List Char → Bool
  | [], _ => true
  | _ :: _, [] => false
  | a :: as, b :: bs => a = b && isPre as bs

/-- Whether `pat` occurs as a contiguous substring of `s`. -/
def hasSub (pat : List Char) : List Char → Bool
  | [] => isPre pat []
  | c :: rest => isPre pat (c :: rest) || hasSub pat rest

/-- String-level substring test. -/
def containsSub (pat s : String) : Bool := hasSub pat.data s.data

/-- Scanner for Python `str.replace` with a nonempty pattern: replace
every leftmost non-overlapping occurrence of `pat` by `rep`.  `fuel`
bounds the recursion; at least one character is consumed per step, so
fuel equal to the input length is always enough. -/
def replaceAllAux (pat rep : List Char) : Nat → List Char → List Char
  | _, [] => []
  | 0, s => s
  | fuel + 1, c :: rest =>
    if isPre pat (c :: rest) then
      rep ++ replaceAllAux pat rep fuel (rest.drop (pat.length - 1))
    else c :: replaceAllAux pat rep fuel rest

/-- Python `s.replace(pat, rep)` for a nonempty `pat`. -/
def pyReplace (s pat rep : String) : String :=
  ⟨replaceAllAux pat.data rep.data s.data.length s.data⟩

/-- The derived output name in `render_docx` when `output_name` is
omitted (renderer.py line 16):
`template_name.replace(".docx", "_rendered.docx")`. -/
def defaultOutputName (template_name : String) : String :=
  pyReplace template_name ".docx" "_rendered.docx"

/-- `TEMPLATE_DIR` of renderer.py, relative to the repository base. -/
def templateDirPath : String := "reports/templates"

/-- `OUTPUT_DIR` of renderer.py, relative to the repository base. -/
def outputDirPath : String := "reports/output"

/-- Failures surfaced by `render_docx`.  A missing template file makes
the third-party template engine raise `PackageNotFoundError` (a
NotFound-class error: "Package not found at ..."), modelled by
`packageNotFound`; every other engine failure propagates unchanged as
`engineError`. -/
inductive RenderError : Type where
  | packageNotFound (path : String)
  | engineError (msg : String)
deriving Repr, DecidableEq

/-- Whether a renderer failure is the NotFound-class error. -/
def RenderError.isNotFound : RenderError → Bool
  | packageNotFound _ => true
  | engineError _ => false

/-- `render_docx` (renderer.py lines 10-24), over a filesystem `fs`
(the set of existing file paths) and the template engine's rendering
behaviour `engine` (the collaborator `docxtpl` merge step; its result on
an existing template is opaque to the repository's code).  Loading a
template whose file is absent raises the engine's NotFound-class error
before anything is written. -/
def render_docx (fs : List String)
    (engine : String → List (String × Value) → Except String Unit)
    (template_name : String) (context : List (String × Value))
    (output_name : Option String) : Except RenderError String :=
  let template_path := templateDirPath ++ "/" ++ template_name
  let out_name :=
    match output_name with
    | none => defaultOutputName template_name
    | some n => n
  let output_path := outputDirPath ++ "/" ++ out_name
  if fs.contains template_path then
    match engine template_path context with
    | .ok _ => .ok output_path
    | .error e => .error (.engineError e)
  else .error (.packageNotFound template_path)

/-- The environment a `docx_to_pdf` call runs in: which backends are
reachable and how the external tool behaves on this invocation.
`soffice_creates_output` records whether the expected output file exists
on disk after a zero-exit LibreOffice run (the tool can exit 0 without
producing it); the LibreOffice branch of the code never consults it. -/
structure PdfEnv where
  soffice_on_path : Bool
  platform : String
  docx2pdf_installed : Bool
  soffice_returncode : Int
  soffice_stderr : String
  soffice_creates_output : Bool
  docx2pdf_creates_output : Bool
deriving Repr, DecidableEq

/-- An input document path split as directory and stem (the `.docx`
file is `dir ++ "/" ++ stem ++ ".docx"`). -/
structure PathM where
  dir : String
  stem : String
deriving Repr, DecidableEq

/-- `Path.parent` on a simple relative path string: everything before
the final slash. -/
def dirOf (s : String) : String :=
  ⟨(((s.data.reverse).dropWhile (fun c => !(c = '/'))).drop 1).reverse⟩

/-- The conversion backends of pdf.py. -/
inductive Backend : Type where
  | libreoffice
  | docx2pdf
deriving Repr, DecidableEq

/-- The message raised when no conversion backend is available
(pdf.py lines 66-68). -/
def noBackendMsg : String :=
  "No PDF backend found. Install LibreOffice (soffice on PATH) or docx2pdf."

/-- `_convert_with_libreoffice` (pdf.py lines 11-28): raises on a
non-zero exit; on a zero exit returns `output_dir / (stem + ".pdf")`
without checking that the file exists. -/
def convert_with_libreoffice (env : PdfEnv) (p : PathM) (output_dir : String) :
    Except String String :=
  if env.soffice_returncode ≠ 0 then
    .error ("LibreOffice failed: " ++ env.soffice_stderr)
  else .ok (output_dir ++ "/" ++ p.stem ++ ".pdf")

/-- `_convert_with_docx2pdf` (pdf.py lines 31-40): raises when the
library is not importable, and when the output file is absent after the
conversion call. -/
def convert_with_docx2pdf (env : PdfEnv) (pdf_path : String) :
    Except String String :=
  if !env.docx2pdf_installed then .error "docx2pdf not installed"
  else if !env.docx2pdf_creates_output then
    .error "docx2pdf did not create output file"
  else .ok pdf_path

/-- The requested output path of a conversion (pdf.py lines 50-53):
next to the input with suffix `.pdf` when unspecified. -/
def pdfPathOf (p : PathM) (output_path : Option String) : String :=
  match output_path with
  | none => p.dir ++ "/" ++ p.stem ++ ".pdf"
  | some o => o

/-- `docx_to_pdf` (pdf.py lines 43-68).  Returns the conversion result
together with the list of backends attempted on this call. -/
def docx_to_pdf (env : PdfEnv) (p : PathM) (output_path : Option String) :
    Except String String × List Backend :=
  let pdf_path := pdfPathOf p output_path
  let output_dir := dirOf pdf_path
  if env.soffice_on_path then
    (convert_with_libreoffice env p output_dir, [.libreoffice])
  else if env.platform = "win32" ∨ env.platform = "darwin" then
    (convert_with_docx2pdf env pdf_path, [.docx2pdf])
  else
    (.error noBackendMsg, [])

/-- `ReportResponse` from `api/models.py`. -/
structure ReportResponse where
  client_id : String
  docx_path : String
  pdf_path : Option String
  generated_at : DT
  template_used : String
deriving Repr, DecidableEq

/-- Calls `generate_report` makes to its collaborators, in order. -/
inductive GenEvent : Type where
  | renderInvoked
  | convertInvoked
deriving Repr, DecidableEq

/-- Outcome of `generate_report`: an `HTTPException` or the response. -/
inductive GenResult : Type where
  | httpError (status : Nat) (detail : String)
  | ok (resp : ReportResponse)
deriving Repr, DecidableEq

/-- `datetime.now().strftime("%Y%m%d_%H%M%S")`. -/
def tsCompact (d : DT) : String :=
  ⟨pad 4 d.year ++ pad 2 d.month ++ pad 2 d.day⟩ ++ "_" ++
    ⟨pad 2 d.hour ++ pad 2 d.minute ++ pad 2 d.second⟩

/-- `generate_report` (main.py lines 84-140), parameterized over the
renderer and converter collaborators; also returns the trace of
collaborator calls made.  `render` errors model any raised exception
(caught and remapped to a 500); `convert` errors model
`PdfConversionError`. -/
def generate_report (store : Store) (req : ReportRequest) (now : DT)
    (render : String → List (String × Value) → String → Except String String)
    (convert : String → Except String String) : GenResult × List GenEvent :=
  match alookup store req.client_id with
  | none => (.httpError 404 "Client not found", [])
  | some brand =>
    let context := buildContext brand req now
    let default_name := req.client_id ++ "_report_" ++ tsCompact now ++ ".docx"
    let output_name :=
      match req.output_filename with
      | some n => if n = "" then default_name else n
      | none => default_name
    match render req.template_name context output_name with
    | .error e => (.httpError 500 ("Failed to render report: " ++ e), [.renderInvoked])
    | .ok docx_path =>
      if req.generate_pdf then
        match convert docx_path with
        | .error e =>
          (.httpError 500 ("PDF conversion failed: " ++ e),
            [.renderInvoked, .convertInvoked])
        | .ok pdf_path =>
          (.ok { client_id := req.client_id, docx_path := docx_path,
                 pdf_path := some pdf_path, generated_at := now,
                 template_used := req.template_name },
            [.renderInvoked, .convertInvoked])
      else
        (.ok { client_id := req.client_id, docx_path := docx_path,
               pdf_path := none, generated_at := now,
               template_used := req.template_name },
          [.renderInvoked])

theorem not_mem_keys_of_alookup_eq_none {α : Type} (d : List (String × α))
    (q : String) (h : alookup d q = none) : q ∉ d.map Prod.fst := by
  induction d with
  | nil => simp
  | cons hd tl ih =>
    obtain ⟨k, w⟩ := hd
    by_cases hk : k = q
    · subst hk; simp [alookup] at h
    · simp only [alookup, if_neg hk] at h
      simp [Ne.symm hk, ih h]

/-- The names bound by the computed part of the context literal. -/
theorem computedBindings_keys (brand : BrandConfig) (req : ReportRequest) (now : DT) :
    (computedBindings brand req now).map Prod.fst
      = ["client_name", "report_date", "report_period", "prepared_by",
         "executive_summary", "metrics", "highlights", "recommendations",
         "contact", "brand"] := rfl

/-- Splitting a context lookup into the extra part (which wins) and the
computed part. -/
theorem alookup_buildContext (brand : BrandConfig) (req : ReportRequest) (now : DT)
    (k : String) :
    alookup (buildContext brand req now) k
      = aor (alookup req.extra_context.reverse k)
          (alookup (computedBindings brand req now).reverse k) := by
  simp only [buildContext, dictOf, contextBindings]
  rw [alookup_foldl, List.reverse_append, alookup_append]
  simp [aor_none_right, alookup]

/-- A key the extra context does not bind keeps its computed value. -/
theorem alookup_buildContext_of_extra_none (brand : BrandConfig)
    (req : ReportRequest) (now : DT) (k : String)
    (h : alookup req.extra_context k = none) :
    alookup (buildContext brand req now) k
      = alookup (computedBindings brand req now) k := by
  rw [alookup_buildContext]
  have hrev : alookup req.extra_context.reverse k = none := by
    apply alookup_eq_none_of_not_mem_keys
    have hmem := not_mem_keys_of_alookup_eq_none _ _ h
    simpa [List.map_reverse] using hmem
  rw [hrev, aor_none_left]
  apply alookup_reverse_of_nodup
  rw [computedBindings_keys]
  decide

/-- Claim C5: generating a report for a client_id absent from the store
returns the 404 not-found error, and neither the renderer nor the
converter is ever invoked (the collaborator-call trace is empty),
whatever the renderer and converter would do. -/
theorem claim_C5 (store : Store) (req : ReportRequest) (now : DT)
    (render : String → List (String × Value) → String → Except String String)
    (convert : String → Except String String)
    (h : alookup store req.client_id = none) :
    generate_report store req now render convert
      = (.httpError 404 "Client not found", []) := by
  simp [generate_report, h]

/-- Witness for C5 at a concrete request against the empty store. -/
theorem claim_C5_witness :
    generate_report [] { client_id := "ghost" } ⟨2026, 10, 12, 0, 0, 0, 0⟩
        (fun _ _ _ => .ok "x.docx") (fun _ => .ok "x.pdf")
      = (.httpError 404 "Client not found", []) :=
  claim_C5 [] { client_id := "ghost" } ⟨2026, 10, 12, 0, 0, 0, 0⟩
    (fun _ _ _ => .ok "x.docx") (fun _ => .ok "x.pdf") rfl

/-- Claim C7: deleting an absent client_id reports not-found and leaves
the store untouched (hence its size unchanged); deleting a present one
reports found, shrinks the store by exactly one entry, leaves every
other key's binding unchanged, and removes the binding of the deleted
key (keys are unique in any store the operations build). -/
theorem claim_C7 (cache : Store) (client_id : String) :
    (alookup cache client_id = none →
      BrandStorage.delete cache client_id = (false, cache)) ∧
    (∀ b, alookup cache client_id = some b →
      (BrandStorage.delete cache client_id).1 = true ∧
      (BrandStorage.delete cache client_id).2.length + 1 = cache.length ∧
      (∀ q, q ≠ client_id →
        alookup (BrandStorage.delete cache client_id).2 q = alookup cache q) ∧
      ((cache.map Prod.fst).Nodup →
        alookup (BrandStorage.delete cache client_id).2 client_id = none)) := by
  constructor
  · intro h
    simp [BrandStorage.delete, h]
  · intro b hb
    have hs : (alookup cache client_id).isSome := by simp [hb]
    refine ⟨by simp [BrandStorage.delete, hb], ?_, ?_, ?_⟩
    · simpa [BrandStorage.delete, hb] using length_aerase cache client_id hs
    · intro q hq
      simp [BrandStorage.delete, hb, alookup_aerase_ne cache client_id q hq]
    · intro hnd
      simp [BrandStorage.delete, hb, alookup_aerase_self cache client_id hnd]

/-- Demo store for the C7 witness. -/
def c7Config : BrandConfig := { client_id := "acme", display_name := "Acme Co" }

/-- Demo store for the C7 witness. -/
def c7Store : Store := [("acme", c7Config)]

/-- Witness for C7: both branches exercised on a concrete store. -/
theorem claim_C7_witness :
    BrandStorage.delete c7Store "ghost" = (false, c7Store) ∧
    (BrandStorage.delete c7Store "acme").1 = true ∧
    (BrandStorage.delete c7Store "acme").2.length + 1 = c7Store.length ∧
    alookup (BrandStorage.delete c7Store "acme").2 "acme" = none := by
  have habsent := (claim_C7 c7Store "ghost").1 (by decide)
  obtain ⟨h1, h2, _, h4⟩ := (claim_C7 c7Store "acme").2 c7Config (by decide)
  exact ⟨habsent, h1, h2, h4 (by decide)⟩

/-- Counterexample to C1 as stated: `upsert` does not preserve the
pre-existing record's backend-assigned `logo_path`; the stored and
returned record takes `logo_path` from the newly supplied config (here:
none), although the existing record held one. -/
def c1Old : BrandConfig :=
  { client_id := "acme", display_name := "Acme Co",
    logo_path := some "brands/acme_logo.png",
    created_at := some ⟨2026, 1, 1, 0, 0, 0, 0⟩,
    updated_at := some ⟨2026, 1, 1, 0, 0, 0, 0⟩ }

/-- The replacement config supplied to the second upsert (no logo). -/
def c1New : BrandConfig := { client_id := "acme", display_name := "Acme Corp" }

/-- The `datetime.utcnow()` of the second upsert. -/
def c1Now : DT := ⟨2026, 2, 2, 0, 0, 0, 0⟩

theorem claim_C1_counterexample :
    alookup [("acme", c1Old)] "acme" = some c1Old ∧
    c1Old.logo_path = some "brands/acme_logo.png" ∧
    (BrandStorage.upsert [("acme", c1Old)] c1New c1Now).2.logo_path = none ∧
    alookup (BrandStorage.upsert [("acme", c1Old)] c1New c1Now).1 "acme"
      = some (BrandStorage.upsert [("acme", c1Old)] c1New c1Now).2 := by
  decide

/-- Claim C1 (amended): on an upsert whose client_id already exists,
the stored (and returned) record keeps the pre-existing record's
created_at, has updated_at set to the current time, and takes every
other field — including logo_path — from the newly supplied config; for
a fresh client_id both timestamps are set to the current time.  In both
cases the record retrieved afterwards is the record returned. -/
theorem claim_C1 (cache : Store) (brand : BrandConfig) (now : DT) :
    (∀ e, alookup cache brand.client_id = some e →
      (BrandStorage.upsert cache brand now).2
          = { brand with created_at := e.created_at, updated_at := some now } ∧
      alookup (BrandStorage.upsert cache brand now).1 brand.client_id
          = some (BrandStorage.upsert cache brand now).2) ∧
    (alookup cache brand.client_id = none →
      (BrandStorage.upsert cache brand now).2
          = { brand with created_at := some now, updated_at := some now } ∧
      alookup (BrandStorage.upsert cache brand now).1 brand.client_id
          = some (BrandStorage.upsert cache brand now).2) := by
  constructor
  · intro e he
    constructor
    · simp [BrandStorage.upsert, he]
    · simp [BrandStorage.upsert, he, alookup_insertOrReplace]
  · intro hn
    constructor
    · simp [BrandStorage.upsert, hn]
    · simp [BrandStorage.upsert, hn, alookup_insertOrReplace]

/-- Witness for C1 (amended): both branches at concrete records. -/
theorem claim_C1_witness :
    (BrandStorage.upsert [("acme", c1Old)] c1New c1Now).2
        = { c1New with created_at := c1Old.created_at, updated_at := some c1Now } ∧
    (BrandStorage.upsert [] c1New c1Now).2
        = { c1New with created_at := some c1Now, updated_at := some c1Now } := by
  have hex := ((claim_C1 [("acme", c1Old)] c1New c1Now).1 c1Old (by decide)).1
  have habs := ((claim_C1 [] c1New c1Now).2 rfl).1
  exact ⟨hex, habs⟩

/-- Claim C6: saving the whole store to the backing document and
rebuilding a fresh store from it reproduces every record field-for-field
(timestamps and optional fields included). -/
theorem claim_C6 (st : Store) (h : st.Valid) :
    BrandStorage.load (BrandStorage.saveData st) = st := by
  simp [BrandStorage.load, parseData_saveData st h]

/-- Demo store for the C6 witness: timestamps with and without
microseconds, populated and absent optional fields. -/
def c6Store : Store :=
  [("acme",
    { client_id := "acme", display_name := "Acme Co",
      primary_color := some "#004481",
      logo_path := some "brands/acme_logo.png",
      website_url := some "https://acme.example/",
      created_at := some ⟨2026, 1, 2, 3, 4, 5, 678901⟩,
      updated_at := some ⟨2026, 1, 2, 3, 4, 5, 0⟩ }),
   ("beta", { client_id := "beta", display_name := "Beta LLC" })]

/-- Witness for C6 on the demo store. -/
theorem claim_C6_witness :
    Store.Valid c6Store ∧
      BrandStorage.load (BrandStorage.saveData c6Store) = c6Store :=
  ⟨by decide, claim_C6 c6Store (by decide)⟩

/-- Claim C4: in the built context, a key bound by the request's
extra_context map (whose keys, a JSON object's, are distinct) takes the
extra_context value, shadowing any computed value — including `brand`;
a key not bound there keeps its computed value. -/
theorem claim_C4 (brand : BrandConfig) (req : ReportRequest) (now : DT)
    (k : String) :
    (∀ v, (req.extra_context.map Prod.fst).Nodup →
      alookup req.extra_context k = some v →
      alookup (buildContext brand req now) k = some v) ∧
    (alookup req.extra_context k = none →
      alookup (buildContext brand req now) k
        = alookup (computedBindings brand req now) k) := by
  constructor
  · intro v hnd hv
    rw [alookup_buildContext, alookup_reverse_of_nodup _ hnd, hv]
    rfl
  · intro hnone
    exact alookup_buildContext_of_extra_none brand req now k hnone

/-- Demo brand for the C4 witness. -/
def c4Brand : BrandConfig := { client_id := "acme", display_name := "Acme Co" }

/-- Demo request for the C4 witness: extra_context shadows `brand`. -/
def c4Req : ReportRequest :=
  { client_id := "acme",
    extra_context := [("brand", .vstr "OVERRIDE"), ("extra_key", .vstr "x")] }

/-- Demo time for the C4 witness. -/
def c4Now : DT := ⟨2026, 10, 12, 0, 0, 0, 0⟩

/-- Witness for C4: `brand` is shadowed by the extra value; a key not in
extra_context (here `client_name`) keeps its computed value. -/
theorem claim_C4_witness :
    alookup (buildContext c4Brand c4Req c4Now) "brand"
        = some (.vstr "OVERRIDE") ∧
    alookup (buildContext c4Brand c4Req c4Now) "client_name"
        = some (.vstr "Acme Co") := by
  constructor
  · exact (claim_C4 c4Brand c4Req c4Now "brand").1 (.vstr "OVERRIDE")
      (by decide) rfl
  · have h := (claim_C4 c4Brand c4Req c4Now "client_name").2 rfl
    rw [h]
    rfl

/-- Demo brand for the C10 counterexample. -/
def c10Brand : BrandConfig := { client_id := "acme", display_name := "Acme Co" }

/-- Demo request for the C10 counterexample: report_date supplied as the
empty string. -/
def c10Req : ReportRequest := { client_id := "acme", report_date := some "" }

/-- Demo current time for C10. -/
def c10Now : DT := ⟨2026, 10, 12, 0, 0, 0, 0⟩

/-- Counterexample to C10 as stated: `request.report_date or default`
tests Python truthiness, so a supplied empty-string report_date is
replaced by the formatted current date instead of being used. -/
theorem claim_C10_counterexample :
    c10Req.report_date = some "" ∧
    alookup (buildContext c10Brand c10Req c10Now) "report_date"
        = some (.vstr "October 12, 2026") ∧
    Value.vstr "October 12, 2026" ≠ Value.vstr "" := by
  refine ⟨rfl, by rfl, ?_⟩
  intro h
  injection h with h'
  exact absurd h' (by decide)

/-- Claim C10 (amended): with none of these keys shadowed by
extra_context, report_date equals the supplied value when it is supplied
and non-empty, and is the current date formatted "Month Day, Year" when
it is absent or supplied empty; report_period, prepared_by and
executive_summary equal the supplied value whenever one is supplied and
default to the empty string when absent. -/
theorem claim_C10 (brand : BrandConfig) (req : ReportRequest) (now : DT)
    (h1 : alookup req.extra_context "report_date" = none)
    (h2 : alookup req.extra_context "report_period" = none)
    (h3 : alookup req.extra_context "prepared_by" = none)
    (h4 : alookup req.extra_context "executive_summary" = none) :
    ((∀ s, req.report_date = some s → s ≠ "" →
      alookup (buildContext brand req now) "report_date" = some (.vstr s)) ∧
     ((req.report_date = none ∨ req.report_date = some "") →
      alookup (buildContext brand req now) "report_date"
        = some (.vstr (formatLongDate now)))) ∧
    (∀ s, req.report_period = some s →
      alookup (buildContext brand req now) "report_period" = some (.vstr s)) ∧
    (req.report_period = none →
      alookup (buildContext brand req now) "report_period" = some (.vstr "")) ∧
    (∀ s, req.prepared_by = some s →
      alookup (buildContext brand req now) "prepared_by" = some (.vstr s)) ∧
    (req.prepared_by = none →
      alookup (buildContext brand req now) "prepared_by" = some (.vstr "")) ∧
    (∀ s, req.executive_summary = some s →
      alookup (buildContext brand req now) "executive_summary" = some (.vstr s)) ∧
    (req.executive_summary = none →
      alookup (buildContext brand req now) "executive_summary" = some (.vstr "")) := by
  have e1 := alookup_buildContext_of_extra_none brand req now "report_date" h1
  have e2 := alookup_buildContext_of_extra_none brand req now "report_period" h2
  have e3 := alookup_buildContext_of_extra_none brand req now "prepared_by" h3
  have e4 := alookup_buildContext_of_extra_none brand req now "executive_summary" h4
  have c1 : alookup (computedBindings brand req now) "report_date"
      = some (.vstr (pyOr req.report_date (formatLongDate now))) := rfl
  have c2 : alookup (computedBindings brand req now) "report_period"
      = some (.vstr (pyOr req.report_period "")) := rfl
  have c3 : alookup (computedBindings brand req now) "prepared_by"
      = some (.vstr (pyOr req.prepared_by "")) := rfl
  have c4 : alookup (computedBindings brand req now) "executive_summary"
      = some (.vstr (pyOr req.executive_summary "")) := rfl
  rw [c1] at e1
  rw [c2] at e2
  rw [c3] at e3
  rw [c4] at e4
  refine ⟨⟨?_, ?_⟩, ?_, ?_, ?_, ?_, ?_, ?_⟩
  · intro s hs hne
    rw [e1, hs]
    simp [pyOr, hne]
  · intro hcase
    rcases hcase with hc | hc <;> rw [e1, hc] <;> simp [pyOr]
  · intro s hs
    rw [e2, hs]
    rcases eq_or_ne s "" with he | he <;> simp [pyOr, he]
  · intro hn
    rw [e2, hn]
    rfl
  · intro s hs
    rw [e3, hs]
    rcases eq_or_ne s "" with he | he <;> simp [pyOr, he]
  · intro hn
    rw [e3, hn]
    rfl
  · intro s hs
    rw [e4, hs]
    rcases eq_or_ne s "" with he | he <;> simp [pyOr, he]
  · intro hn
    rw [e4, hn]
    rfl

/-- Demo request for the C10 witness. -/
def c10wReq : ReportRequest :=
  { client_id := "acme", report_date := some "Jan 5, 2026",
    report_period := some "", prepared_by := none,
    executive_summary := some "All good" }

/-- Witness for C10 (amended) at a concrete request. -/
theorem claim_C10_witness :
    alookup (buildContext c10Brand c10wReq c10Now) "report_date"
        = some (.vstr "Jan 5, 2026") ∧
    alookup (buildContext c10Brand c10wReq c10Now) "report_period"
        = some (.vstr "") ∧
    alookup (buildContext c10Brand c10wReq c10Now) "prepared_by"
        = some (.vstr "") ∧
    alookup (buildContext c10Brand c10wReq c10Now) "executive_summary"
        = some (.vstr "All good") := by
  obtain ⟨⟨hd, _⟩, hp, _, _, hpb, hes, _⟩ :=
    claim_C10 c10Brand c10wReq c10Now rfl rfl rfl rfl
  exact ⟨hd "Jan 5, 2026" rfl (by decide), hp "" rfl, hpb rfl, hes "All good" rfl⟩

/-- Claim C3: when the template file is absent from the fixed template
directory, `render(template_name, context, output_name?)` fails with the
NotFound-class error (the engine's package-not-found on the resolved
template path), not with success or an unrelated error class. -/
theorem claim_C3 (fs : List String)
    (engine : String → List (String × Value) → Except String Unit)
    (template_name : String) (context : List (String × Value))
    (output_name : Option String)
    (h : fs.contains (templateDirPath ++ "/" ++ template_name) = false) :
    render_docx fs engine template_name context output_name
        = .error (.packageNotFound (templateDirPath ++ "/" ++ template_name)) ∧
    (RenderError.packageNotFound
        (templateDirPath ++ "/" ++ template_name)).isNotFound = true := by
  refine ⟨?_, rfl⟩
  have hmem : templateDirPath ++ "/" ++ template_name ∉ fs := by
    simpa using h
  simp [render_docx, hmem]

/-- Witness for C3: an absent template on an empty filesystem. -/
theorem claim_C3_witness :
    render_docx [] (fun _ _ => .ok ()) "missing.docx" [] none
        = .error (.packageNotFound (templateDirPath ++ "/" ++ "missing.docx")) :=
  (claim_C3 [] (fun _ _ => .ok ()) "missing.docx" [] none rfl).1

theorem isPre_append_self (l t : List Char) : isPre l (l ++ t) = true := by
  induction l with
  | nil => rfl
  | cons c cs ih => simp [isPre, ih]

/-- No occurrence of `pat` starts strictly inside `base` when scanning
`base ++ pat` (so the only occurrence is the final one). -/
def CleanBase (pat base : List Char) : Prop :=
  ∀ i, i < base.length → isPre pat ((base ++ pat).drop i) = false

instance (pat base : List Char) : Decidable (CleanBase pat base) := by
  unfold CleanBase; infer_instance

theorem replaceAllAux_clean (pat rep : List Char) (hpat : pat ≠ []) :
    ∀ (base : List Char) (fuel : Nat), (base ++ pat).length ≤ fuel →
      CleanBase pat base →
      replaceAllAux pat rep fuel (base ++ pat) = base ++ rep := by
  intro base
  induction base with
  | nil =>
    intro fuel hfuel hclean
    cases pat with
    | nil => exact absurd rfl hpat
    | cons p ps =>
      cases fuel with
      | zero => simp at hfuel
      | succ f =>
        simp only [List.nil_append, replaceAllAux]
        rw [if_pos (by simpa using isPre_append_self (p :: ps) [])]
        have hdrop : ps.drop ((p :: ps).length - 1) = [] := by
          simp [List.drop_length]
        rw [hdrop]
        simp [replaceAllAux]
  | cons c bs ih =>
    intro fuel hfuel hclean
    cases fuel with
    | zero => simp at hfuel
    | succ f =>
      have h0 : isPre pat (c :: (bs ++ pat)) = false := by
        simpa using hclean 0 (by simp)
      simp only [List.cons_append, replaceAllAux]
      rw [if_neg (by simp [h0])]
      congr 1
      apply ih f
      · have hlen : ((c :: bs) ++ pat).length = (bs ++ pat).length + 1 := by simp
        omega
      · intro i hi
        have hstep := hclean (i + 1) (by simpa using Nat.succ_lt_succ hi)
        simpa using hstep

/-- Counterexample to C9 as stated: `str.replace` substitutes every
occurrence of ".docx", so a template name containing it twice does not
keep "the rest of the name intact" with a single suffix substitution
(which would give "q.docx_rendered.docx"). -/
theorem claim_C9_counterexample :
    defaultOutputName "q.docx.docx" = "q_rendered.docx_rendered.docx" ∧
    ("q_rendered.docx_rendered.docx" : String) ≠ "q.docx_rendered.docx" := by
  constructor
  · rfl
  · decide

/-- Claim C9 (amended): the derived output name replaces every
occurrence of ".docx" in the template name with "_rendered.docx"; for a
template name in which ".docx" occurs exactly once, namely as its final
extension, this replaces that extension marker with "_rendered" plus the
extension and leaves the rest of the name intact. -/
theorem claim_C9 (base : List Char) (hclean : CleanBase ".docx".data base) :
    defaultOutputName ⟨base ++ ".docx".data⟩ = ⟨base ++ "_rendered.docx".data⟩ := by
  unfold defaultOutputName pyReplace
  congr 1
  exact replaceAllAux_clean ".docx".data "_rendered.docx".data (by decide)
    base (base ++ ".docx".data).length (le_refl _) hclean

/-- Witness for C9 (amended) on the template name "report.docx". -/
theorem claim_C9_witness :
    defaultOutputName "report.docx" = "report_rendered.docx" := by
  have e1 : ("report.docx" : String) = ⟨"report".data ++ ".docx".data⟩ := by decide
  have e2 : ("report_rendered.docx" : String)
      = ⟨"report".data ++ "_rendered.docx".data⟩ := by decide
  rw [e1, e2]
  exact claim_C9 "report".data (by decide)

/-- Environment for the C2 counterexample: LibreOffice on the path,
zero exit, but no output file produced. -/
def c2Env : PdfEnv :=
  { soffice_on_path := true, platform := "linux", docx2pdf_installed := false,
    soffice_returncode := 0, soffice_stderr := "",
    soffice_creates_output := false, docx2pdf_creates_output := false }

/-- Counterexample to C2 as stated: after a successful (zero-exit)
LibreOffice run that produced no output file, `docx_to_pdf` returns the
expected path instead of raising — the LibreOffice branch never checks
that the output file exists. -/
theorem claim_C2_counterexample :
    c2Env.soffice_returncode = 0 ∧
    c2Env.soffice_creates_output = false ∧
    (docx_to_pdf c2Env ⟨"out", "report"⟩ none).1 = .ok "out/report.pdf" :=
  ⟨rfl, rfl, rfl⟩

/-- Claim C2 (amended): the converter raises a ConversionError when no
backend is available, when the LibreOffice tool exits non-zero, and —
on the docx2pdf backend only — when the library is missing or the
output file is absent after the call; after a zero-exit LibreOffice run
it returns the expected output path without checking that the file
exists. -/
theorem claim_C2 (env : PdfEnv) (p : PathM) (o : Option String) :
    ((env.soffice_on_path = false ∧ env.platform ≠ "win32" ∧
        env.platform ≠ "darwin") →
      (docx_to_pdf env p o).1 = .error noBackendMsg) ∧
    ((env.soffice_on_path = true ∧ env.soffice_returncode ≠ 0) →
      (docx_to_pdf env p o).1
        = .error ("LibreOffice failed: " ++ env.soffice_stderr)) ∧
    ((env.soffice_on_path = true ∧ env.soffice_returncode = 0) →
      (docx_to_pdf env p o).1
        = .ok (dirOf (pdfPathOf p o) ++ "/" ++ p.stem ++ ".pdf")) ∧
    ((env.soffice_on_path = false ∧
        (env.platform = "win32" ∨ env.platform = "darwin") ∧
        env.docx2pdf_installed = false) →
      (docx_to_pdf env p o).1 = .error "docx2pdf not installed") ∧
    ((env.soffice_on_path = false ∧
        (env.platform = "win32" ∨ env.platform = "darwin") ∧
        env.docx2pdf_installed = true ∧ env.docx2pdf_creates_output = false) →
      (docx_to_pdf env p o).1 = .error "docx2pdf did not create output file") := by
  refine ⟨?_, ?_, ?_, ?_, ?_⟩
  · rintro ⟨h1, h2, h3⟩
    simp [docx_to_pdf, h1, h2, h3]
  · rintro ⟨h1, h2⟩
    simp [docx_to_pdf, convert_with_libreoffice, h1, h2]
  · rintro ⟨h1, h2⟩
    simp [docx_to_pdf, convert_with_libreoffice, h1, h2]
  · rintro ⟨h1, h2, h3⟩
    simp [docx_to_pdf, convert_with_docx2pdf, h1, h2, h3]
  · rintro ⟨h1, h2, h3, h4⟩
    simp [docx_to_pdf, convert_with_docx2pdf, h1, h2, h3, h4]

/-- Environment with no backend at all on a Linux host. -/
def c2EnvNone : PdfEnv :=
  { soffice_on_path := false, platform := "linux", docx2pdf_installed := false,
    soffice_returncode := 0, soffice_stderr := "",
    soffice_creates_output := false, docx2pdf_creates_output := false }

/-- Environment where LibreOffice runs and fails. -/
def c2EnvFail : PdfEnv :=
  { soffice_on_path := true, platform := "linux", docx2pdf_installed := false,
    soffice_returncode := 1, soffice_stderr := "boom",
    soffice_creates_output := false, docx2pdf_creates_output := false }

/-- Witness for C2 (amended): the no-backend and non-zero-exit error
branches at concrete environments. -/
theorem claim_C2_witness :
    (docx_to_pdf c2EnvNone ⟨"out", "report"⟩ none).1 = .error noBackendMsg ∧
    (docx_to_pdf c2EnvFail ⟨"out", "report"⟩ none).1
      = .error ("LibreOffice failed: " ++ "boom") := by
  constructor
  · exact (claim_C2 c2EnvNone ⟨"out", "report"⟩ none).1 ⟨rfl, by decide, by decide⟩
  · exact (claim_C2 c2EnvFail ⟨"out", "report"⟩ none).2.1 ⟨rfl, by decide⟩

/-- Claim C8: backend selection priority — the headless LibreOffice CLI
whenever `soffice` is on the path; otherwise docx2pdf on exactly the
win32/darwin platforms; otherwise an immediate ConversionError whose
message contains "No PDF backend found" with no backend attempted — and
every call attempts at most one backend (no retry). -/
theorem claim_C8 (env : PdfEnv) (p : PathM) (o : Option String) :
    (env.soffice_on_path = true →
      docx_to_pdf env p o
        = (convert_with_libreoffice env p (dirOf (pdfPathOf p o)),
            [.libreoffice])) ∧
    (env.soffice_on_path = false →
      (env.platform = "win32" ∨ env.platform = "darwin") →
      docx_to_pdf env p o
        = (convert_with_docx2pdf env (pdfPathOf p o), [.docx2pdf])) ∧
    (env.soffice_on_path = false → env.platform ≠ "win32" →
      env.platform ≠ "darwin" →
      docx_to_pdf env p o = (.error noBackendMsg, []) ∧
      containsSub "No PDF backend found" noBackendMsg = true) ∧
    (docx_to_pdf env p o).2.length ≤ 1 := by
  refine ⟨?_, ?_, ?_, ?_⟩
  · intro h1
    simp [docx_to_pdf, h1]
  · intro h1 h2
    simp [docx_to_pdf, h1, h2]
  · intro h1 h2 h3
    exact ⟨by simp [docx_to_pdf, h1, h2, h3], by decide⟩
  · by_cases h1 : env.soffice_on_path
    · simp [docx_to_pdf, h1]
    · by_cases h2 : env.platform = "win32" ∨ env.platform = "darwin" <;>
        simp [docx_to_pdf, h1, h2]

/-- Environment for the C8 witness: LibreOffice available. -/
def c8EnvSoffice : PdfEnv :=
  { soffice_on_path := true, platform := "linux", docx2pdf_installed := false,
    soffice_returncode := 0, soffice_stderr := "",
    soffice_creates_output := true, docx2pdf_creates_output := false }

/-- Environment for the C8 witness: no backend on a Linux host. -/
def c8EnvNone : PdfEnv :=
  { soffice_on_path := false, platform := "linux", docx2pdf_installed := false,
    soffice_returncode := 0, soffice_stderr := "",
    soffice_creates_output := false, docx2pdf_creates_output := false }

/-- Witness for C8: the LibreOffice-preferred branch and the
no-backend branch at concrete environments. -/
theorem claim_C8_witness :
    docx_to_pdf c8EnvSoffice ⟨"out", "report"⟩ none
      = (convert_with_libreoffice c8EnvSoffice ⟨"out", "report"⟩
          (dirOf (pdfPathOf ⟨"out", "report"⟩ none)), [.libreoffice]) ∧
    docx_to_pdf c8EnvNone ⟨"out", "report"⟩ none = (.error noBackendMsg, []) := by
  constructor
  · exact (claim_C8 c8EnvSoffice ⟨"out", "report"⟩ none).1 rfl
  · exact ((claim_C8 c8EnvNone ⟨"out", "report"⟩ none).2.2.1 rfl (by decide)
      (by decide)).1

end ClientReports
